import Mathlib

/-!
Verification of the build-rule synthesis engine of `blade/rules_generator.py`
(the `NinjaScriptHeaderGenerator` class and its helpers).

The Python module is shallowly embedded below: Python strings become `String`,
`' '.join` becomes `pyJoin`, `os.environ` becomes an association list threaded
through the generator state, the mutable `rules_buf` list becomes the
`rulesBuf : List String` field of `GenState`, and the single fallible
operation (`console.error_exit` in `generate_proto_rules`) makes the overall
pipeline return `Except String GenState`.  The `os.path` functions used by the
source (`join`, `normpath`, `abspath`, `relpath`) are reimplemented from the
`posixpath` algorithms, parameterised by the current working directory.
-/

/-! ## Character-list utilities used for string reasoning -/

/-- Boolean prefix test on character lists (the semantics of Python's
`str.startswith` after taking `String.data`). -/
def lpre : List Char → List Char → Bool
  | [], _ => true
  | _ :: _, [] => false
  | a :: as, b :: bs => a == b && lpre as bs

/-- `strStarts p s` is Python's `s.startswith(p)`. -/
def strStarts (p s : String) : Bool :=
  lpre p.data s.data

/-- The characters of a string up to (excluding) the first newline. -/
def takeLine : List Char → List Char
  | [] => []
  | c :: cs => if c == '\n' then [] else c :: takeLine cs

/-- Python's `sep.join(parts)`. -/
def pyJoin (sep : String) : List String → String
  | [] => ""
  | [x] => x
  | x :: y :: rest => x ++ sep ++ pyJoin sep (y :: rest)

/-- Python truthiness of a string: non-empty. -/
def truthy (s : String) : Bool := s != ""

/-- Python truthiness of an optional string (`None` and `''` are falsy). -/
def truthyO : Option String → Bool
  | none => false
  | some s => truthy s

/-! ## The `posixpath` algorithms used by the source -/

/-- Python's `str.split(c)` on character lists. -/
def splitChar (c : Char) : List Char → List (List Char)
  | [] => [[]]
  | a :: as =>
    match splitChar c as with
    | [] => [[]]
    | h :: t => if a == c then [] :: h :: t else (a :: h) :: t

/-- `'/'.join` on character-list components.  `posixpath.join(*comps)`
coincides with this when no component is empty, absolute or contains `'/'`,
which holds for the component lists produced by `relpath`. -/
def joinSlashC : List (List Char) → List Char
  | [] => []
  | [x] => x
  | x :: y :: rest => x ++ '/' :: joinSlashC (y :: rest)

/-- `posixpath.join(a, b)`. -/
def pjoin (a b : String) : String :=
  if strStarts "/" b then b
  else if a = "" || a.data.getLast? == some '/' then a ++ b
  else a ++ "/" ++ b

/-- `posixpath.normpath`. -/
def normpath (p : String) : String :=
  if p = "" then "." else
  let islash : Nat :=
    if strStarts "/" p then
      (if strStarts "//" p && !(strStarts "///" p) then 2 else 1)
    else 0
  let comps := splitChar '/' p.data
  let newComps := comps.foldl
    (fun acc comp =>
      if comp == [] || comp == ['.'] then acc
      else if comp != ['.', '.'] || (islash == 0 && acc.isEmpty)
              || (acc.getLast? == some ['.', '.']) then
        acc ++ [comp]
      else acc.dropLast)
    []
  let res := List.replicate islash '/' ++ joinSlashC newComps
  if res = [] then "." else String.mk res

/-- `posixpath.abspath`, with the process working directory made explicit. -/
def abspath (cwd p : String) : String :=
  if strStarts "/" p then normpath p else normpath (pjoin cwd p)

/-- The non-empty components of an absolute path, as used by `relpath`. -/
def stripComps (s : String) : List (List Char) :=
  (splitChar '/' s.data).filter (fun c => c != [])

/-- Length of the longest common prefix of two component lists
(`os.path.commonprefix`). -/
def commonLen : List (List Char) → List (List Char) → Nat
  | a :: as, b :: bs => if a == b then commonLen as bs + 1 else 0
  | _, _ => 0

/-- `posixpath.relpath(path, start)`, with the working directory explicit. -/
def relpathStr (cwd path start : String) : String :=
  let sl := stripComps (abspath cwd start)
  let pl := stripComps (abspath cwd path)
  let i := commonLen sl pl
  let rl := List.replicate (sl.length - i) ['.', '.'] ++ pl.drop i
  if rl = [] then "." else String.mk (joinSlashC rl)

/-! ## Data model

`Config` holds every value the source reads through `config.get_item` /
`config.get_section`; `Env` holds the remaining externally supplied inputs
(constructor arguments, platform and environment probes, `os.path` cwd,
`console.colored`, `blade_util.load_scm`, `sys.executable`); `GenState` is the
mutable state of one `NinjaScriptHeaderGenerator` instance. -/

structure Config where
  distccEnabled : Bool
  ccCflags : List String
  ccCxxflags : List String
  ccCppflags : List String
  ccLinkflags : List String
  ccExtraIncs : List String
  ccSecurecc : String
  headerInclusionDeps : Bool
  ccArflags : List String
  linkJobs : Nat
  protoc : String
  protocJava : String
  protobufIncs : List String
  protobufJavaIncs : List String
  protobufGoPath : String
  protocGoPlugin : String
  protocGoSubplugins : List String
  goHome : String
  go : String
  goModuleEnabled : Bool
  goModuleRelpath : String
  javaHome : String
  javaVersion : String
  javaSourceVersion : Option String
  javaTargetVersion : Option String
  jacocoHome : String
  oneJarBootJar : String
  scalaHome : String
  thriftIncs : List String
  thriftGenParams : String
  thrift : String

structure Env where
  buildDir : String
  bladePath : String
  bladeRootDir : String
  cwd : String
  profile : String
  sysExecutable : String
  platformCc : String
  platformCcVersion : String
  scmRevision : String
  scmUrl : String
  ccacheInstalled : Bool
  parallelJobs : Nat
  warnings : List String
  cWarnings : List String
  cxxWarnings : List String
  cppflagsMgr : List String
  ldflagsMgr : List String
  colored : String → String
  osEnviron : List (String × String)

structure GenState where
  rulesBuf : List String
  allRuleNames : List String
  environ : List (String × String)

/-- `os.environ.get(k, d)`. -/
def envGet (e : List (String × String)) (k d : String) : String :=
  match e.find? (fun kv => kv.1 == k) with
  | some kv => kv.2
  | none => d

/-- `os.environ[k] = v` (update in place, append if fresh). -/
def envSet (k v : String) : List (String × String) → List (String × String)
  | [] => [(k, v)]
  | kv :: rest => if kv.1 == k then (k, v) :: rest else kv :: envSet k v rest

/-- The fresh state of a newly constructed `NinjaScriptHeaderGenerator`. -/
def initState (env : Env) : GenState :=
  { rulesBuf := [], allRuleNames := [], environ := env.osEnviron }

/-- `self.__all_rule_names.add(name)`: Python `set.add` (membership-preserving
insertion, no error on duplicates). -/
def insertName (n : String) (l : List String) : List String :=
  if n ∈ l then l else l ++ [n]

/-! ## The embedding of `NinjaScriptHeaderGenerator` -/

/-- `_add_rule`: append `'%s\n' % rule` to the buffer. -/
def addRule (s : String) (st : GenState) : GenState :=
  { st with rulesBuf := st.rulesBuf ++ [s ++ "\n"] }

/-- `generate_rule`: register the name and emit the rule block; every optional
field line is guarded by Python truthiness of its argument. -/
def generateRule (env : Env) (name command : String)
    (description depfile : Option String) (generator : Bool)
    (pool : Option String) (restat : Bool)
    (rspfile rspfileContent deps : Option String) (st : GenState) : GenState :=
  let st := { st with allRuleNames := insertName name st.allRuleNames }
  let st := addRule ("rule " ++ name) st
  let st := addRule ("  command = " ++ command) st
  let st := if truthyO description then
      addRule ("  description = " ++ env.colored (description.getD "")) st else st
  let st := if truthyO depfile then
      addRule ("  depfile = " ++ depfile.getD "") st else st
  let st := if generator then addRule "  generator = 1" st else st
  let st := if truthyO pool then addRule ("  pool = " ++ pool.getD "") st else st
  let st := if restat then addRule "  restat = 1" st else st
  let st := if truthyO rspfile then
      addRule ("  rspfile = " ++ rspfile.getD "") st else st
  let st := if truthyO rspfileContent then
      addRule ("  rspfile_content = " ++ rspfileContent.getD "") st else st
  if truthyO deps then addRule ("  deps = " ++ deps.getD "") st else st

/-- `_toolchain_command`: the delegated-step command builder. -/
def toolchainCommand (env : Env) (builder pfx sfx : String) : String :=
  let cmd := ["PYTHONPATH=" ++ env.bladePath ++ ":$$PYTHONPATH"]
  let cmd := if truthy pfx then cmd ++ [pfx] else cmd
  let cmd := cmd ++ [env.sysExecutable ++ " -m blade.toolchain " ++ builder]
  let cmd := if truthy sfx then cmd ++ [sfx] else cmd ++ ["${out} ${in}"]
  pyJoin " " cmd

def generateFileHeader (env : Env) (st : GenState) : GenState :=
  let st := addRule ("# build.ninja generated by blade\nninja_required_version = 1.7\nbuilddir = "
      ++ env.buildDir) st
  addRule "pool heavy_pool\n  depth = 1\n" st

def generateCommonRules (env : Env) (st : GenState) : GenState :=
  let st := generateRule env "stamp" "touch ${out}" (some "STAMP ${out}")
      none false none false none none none st
  generateRule env "copy" "cp -f ${in} ${out}" (some "COPY ${in} ${out}")
      none false none false none none none st

def generateCcWarningVars (env : Env) (st : GenState) : GenState :=
  let cW := env.cWarnings ++ env.warnings
  let cxxW := env.cxxWarnings ++ env.warnings
  addRule ("c_warnings = " ++ (pyJoin " " cW ++ ("\ncxx_warnings = " ++ (pyJoin " " cxxW ++ "\n")))) st

def generateCcRules (cfg : Config) (env : Env) (st : GenState) : GenState :=
  let cc0 := envGet st.environ "CC" "gcc"
  let cxx0 := envGet st.environ "CXX" "g++"
  let ld := envGet st.environ "LD" "g++"
  let st := if env.ccacheInstalled then
      { st with environ :=
          envSet "CCACHE_NOHASHDIR" "true" (envSet "CCACHE_BASEDIR" env.bladeRootDir st.environ) }
    else st
  let cc := if env.ccacheInstalled then "ccache " ++ cc0 else cc0
  let cxx := if env.ccacheInstalled then "ccache " ++ cxx0 else cxx0
  let cppflags := cfg.ccCppflags ++ env.cppflagsMgr
  let arflags := pyJoin "" cfg.ccArflags
  let ldflags := cfg.ccLinkflags ++ env.ldflagsMgr
  let includes := pyJoin " " ((cfg.ccExtraIncs ++ [".", env.buildDir]).map (fun inc => "-I" ++ inc))
  let st := generateCcWarningVars env st
  let st := generateRule env "cc"
      (cc ++ (" -o ${out} -MMD -MF ${out}.d -c -fPIC " ++ (pyJoin " " cfg.ccCflags ++ (" " ++ (pyJoin " " cppflags ++ (" ${c_warnings} ${cppflags} " ++ (includes ++ " ${includes} ${in}")))))))
      (some "CC ${in}") (some "${out}.d") false none false none none (some "gcc") st
  let st := generateRule env "cxx"
      (cxx ++ (" -o ${out} -MMD -MF ${out}.d -c -fPIC " ++ (pyJoin " " cfg.ccCxxflags ++ (" " ++ (pyJoin " " cppflags ++ (" ${cxx_warnings} ${cppflags} " ++ (includes ++ " ${includes} ${in}")))))))
      (some "CXX ${in}") (some "${out}.d") false none false none none (some "gcc") st
  let st := if cfg.headerInclusionDeps then
      let st := generateRule env "cchdrs"
          (cc ++ (" -o /dev/null -E -H " ++ (pyJoin " " cfg.ccCflags ++ (" " ++ (pyJoin " " cppflags ++ (" -w ${cppflags} " ++ (includes ++ " ${includes} ${in} 2>${out}")))))))
          (some "CC HDRS ${in}") none false none false none none none st
      generateRule env "cxxhdrs"
          (cxx ++ (" -o /dev/null -E -H " ++ (pyJoin " " cfg.ccCxxflags ++ (" " ++ (pyJoin " " cppflags ++ (" -w ${cppflags} " ++ (includes ++ " ${includes} ${in} 2>${out}")))))))
          (some "CXX HDRS ${in}") none false none false none none none st
    else st
  let securecc := cfg.ccSecurecc ++ (" " ++ cxx)
  let st := addRule "build __securecc_phony__ : phony\n" st
  let st := generateRule env "securecccompile"
      (securecc ++ (" -o ${out} -c -fPIC " ++ (pyJoin " " cfg.ccCxxflags ++ (" " ++ (pyJoin " " cppflags ++ (" ${cxx_warnings} ${cppflags} " ++ (includes ++ " ${includes} ${in}")))))))
      (some "SECURECC ${in}") none false none false none none none st
  let st := generateRule env "securecc" (toolchainCommand env "securecc_object" "" "")
      (some "SECURECC ${in}") none false none true none none none st
  let st := generateRule env "ar" ("rm -f $out; ar " ++ (arflags ++ " $out $in"))
      (some "AR ${out}") none false none false none none none st
  let lj := min cfg.linkJobs env.parallelJobs
  let st := if cfg.linkJobs != 0 then
      addRule ("pool link_pool\n  depth = " ++ toString lj) st else st
  let pool : Option String := if cfg.linkJobs != 0 then some "link_pool" else none
  let st := generateRule env "link"
      (ld ++ (" -o ${out} " ++ (pyJoin " " ldflags ++ " ${ldflags} ${in} ${extra_ldflags}")))
      (some "LINK ${out}") none false pool false none none none st
  let st := generateRule env "solink"
      (ld ++ (" -o ${out} -shared " ++ (pyJoin " " ldflags ++ " ${ldflags} ${in} ${extra_ldflags}")))
      (some "SHAREDLINK ${out}") none false pool false none none none st
  generateRule env "strip" "strip --strip-unneeded -o ${out} ${in}"
      (some "STRIP ${out}") none false none false none none none st

/-- `protoc_import_path_option`. -/
def protocImportPathOption (incs : List String) : String :=
  pyJoin " " (incs.map (fun inc => "-I=" ++ inc))

/-- `generate_proto_rules`; `console.error_exit` becomes `Except.error`. -/
def generateProtoRules (cfg : Config) (env : Env) (st : GenState) : Except String GenState :=
  let protoc := cfg.protoc
  let protocJava := if truthy cfg.protocJava then cfg.protocJava else protoc
  let protobufIncs := protocImportPathOption cfg.protobufIncs
  let protobufJavaIncs :=
    if cfg.protobufJavaIncs != [] then protocImportPathOption cfg.protobufJavaIncs
    else protobufIncs
  let st := addRule "protocflags =\nprotoccpppluginflags =\nprotocjavapluginflags =\nprotocpythonpluginflags =\n" st
  let st := generateRule env "proto"
      (protoc ++ (" --proto_path=. " ++ (protobufIncs ++ (" -I=`dirname ${in}` --cpp_out=" ++ (env.buildDir ++ " ${protocflags} ${protoccpppluginflags} ${in}")))))
      (some "PROTOC ${in}") none false none false none none none st
  let st := generateRule env "protojava"
      (protocJava ++ (" --proto_path=. " ++ (protobufJavaIncs ++ (" --java_out=" ++ (env.buildDir ++ "/`dirname ${in}` ${protocjavapluginflags} ${in}")))))
      (some "PROTOCJAVA ${in}") none false none false none none none st
  let st := generateRule env "protopython"
      (protoc ++ (" --proto_path=. " ++ (protobufIncs ++ (" -I=`dirname ${in}` --python_out=" ++ (env.buildDir ++ " ${protocpythonpluginflags} ${in}")))))
      (some "PROTOCPYTHON ${in}") none false none false none none none st
  let st := generateRule env "protodescriptors"
      (protoc ++ (" --proto_path=. " ++ (protobufIncs ++ " -I=`dirname ${first}` --descriptor_set_out=${out} --include_imports --include_source_info ${in}")))
      (some "PROTODESCRIPTORS ${in}") none false none false none none none st
  if truthy cfg.protocGoPlugin then
    if !truthy cfg.goHome then
      .error "go_home is not configured in either BLADE_ROOT or BLADE_ROOT.local."
    else
      let outdir := if cfg.goModuleEnabled && !truthy cfg.goModuleRelpath then
          cfg.protobufGoPath else pjoin cfg.goHome "src"
      let goOut := if cfg.protocGoSubplugins != [] then
          "plugins=" ++ (pyJoin "+" cfg.protocGoSubplugins ++ (":" ++ outdir))
        else outdir
      .ok (generateRule env "protogo"
        (protoc ++ (" --proto_path=. " ++ (protobufIncs ++ (" -I=`dirname ${in}` --plugin=protoc-gen-go=" ++ (cfg.protocGoPlugin ++ (" --go_out=" ++ (goOut ++ " ${in}")))))))
        (some "PROTOCGOLANG ${in}") none false none false none none none st)
  else .ok st

def generateResourceRules (env : Env) (st : GenState) : GenState :=
  let st := generateRule env "resource_index"
      (toolchainCommand env "resource_index" "" "${name} ${path} ${out} ${in}")
      (some "RESOURCE INDEX ${out}") none false none false none none none st
  generateRule env "resource"
      "xxd -i ${in} | sed -e \"s/^unsigned char /const char RESOURCE_/g\" -e \"s/^unsigned int /const unsigned int RESOURCE_/g\" > ${out}"
      (some "RESOURCE ${in}") none false none false none none none st

/-- `get_java_command`. -/
def getJavaCommand (cfg : Config) (cmd : String) : String :=
  if truthy cfg.javaHome then pjoin (pjoin cfg.javaHome "bin") cmd else cmd

def generateJavacRules (cfg : Config) (env : Env) (st : GenState) : GenState :=
  let javac := getJavaCommand cfg "javac"
  let jar := getJavaCommand cfg "jar"
  let sourceVersion := cfg.javaSourceVersion.getD cfg.javaVersion
  let targetVersion := cfg.javaTargetVersion.getD cfg.javaVersion
  let cmd := [javac]
  let cmd := if truthy sourceVersion then cmd ++ ["-source " ++ sourceVersion] else cmd
  let cmd := if truthy targetVersion then cmd ++ ["-target " ++ targetVersion] else cmd
  let cmd := cmd ++ ["-encoding ${source_encoding}", "-d ${classes_dir}",
      "-classpath ${classpath}", "${javacflags}", "${in}"]
  let st := addRule "source_encoding = UTF-8\nclasspath = .\njavacflags =\n" st
  generateRule env "javac"
      ("rm -fr ${classes_dir} && mkdir -p ${classes_dir} && " ++ (pyJoin " " cmd ++ (" && sleep 0.5 && " ++ (jar ++ " cf ${out} -C ${classes_dir} ."))))
      (some "JAVAC ${in}") none false none false none none none st

def generateJavaResourceRules (env : Env) (st : GenState) : GenState :=
  generateRule env "javaresource" (toolchainCommand env "java_resource" "" "")
      (some "JAVA RESOURCE ${in}") none false none false none none none st

def generateJavaTestRules (cfg : Config) (env : Env) (st : GenState) : GenState :=
  let pfx := if truthy cfg.jacocoHome then
      "BLADE_JACOCOAGENT=" ++ pjoin (pjoin cfg.jacocoHome "lib") "jacocoagent.jar"
    else ""
  let st := addRule "javatargetundertestpkg = __targetundertestpkg__" st
  generateRule env "javatest"
      (toolchainCommand env "java_test" pfx "${mainclass} ${javatargetundertestpkg} ${out} ${in}")
      (some "JAVA TEST ${out}") none false none false none none none st

def generateJavaBinaryRules (cfg : Config) (env : Env) (st : GenState) : GenState :=
  let st := generateRule env "onejar"
      (toolchainCommand env "java_onejar" "" (cfg.oneJarBootJar ++ " ${mainclass} ${out} ${in}"))
      (some "ONE JAR ${out}") none false none false none none none st
  generateRule env "javabinary" (toolchainCommand env "java_binary" "" "")
      (some "JAVA BIN ${out}") none false none false none none none st

def generateScalaRules (cfg : Config) (env : Env) (st : GenState) : GenState :=
  let scala := if truthy cfg.scalaHome then pjoin (pjoin cfg.scalaHome "bin") "scala" else "scala"
  let scalac := if truthy cfg.scalaHome then pjoin (pjoin cfg.scalaHome "bin") "scalac" else "scalac"
  let java := getJavaCommand cfg "java"
  let st := addRule "scalacflags = -nowarn\n" st
  let st := generateRule env "scalac"
      (pyJoin " " ["JAVACMD=" ++ java, scalac, "-encoding UTF8", "-d ${out}",
        "-classpath ${classpath}", "${scalacflags}", "${in}"])
      (some "SCALAC ${out}") none false none false none none none st
  generateRule env "scalatest"
      (toolchainCommand env "scala_test" "" (java ++ (" " ++ (scala ++ " ${out} ${in}"))))
      (some "SCALA TEST ${out}") none false none false none none none st

def generateJavaScalaRules (cfg : Config) (env : Env) (st : GenState) : GenState :=
  let st := generateJavacRules cfg env st
  let st := generateJavaResourceRules env st
  let jar := getJavaCommand cfg "jar"
  let st := generateRule env "javajar"
      (toolchainCommand env "java_jar" "" (jar ++ " ${out} ${in}"))
      (some "JAVA JAR ${out}") none false none false none none none st
  let st := generateJavaTestRules cfg env st
  let st := generateRule env "fatjar" (toolchainCommand env "java_fatjar" "" "")
      (some "FAT JAR ${out}") none false none false none none none st
  let st := generateJavaBinaryRules cfg env st
  generateScalaRules cfg env st

/-- `_incs_list_to_string`. -/
def incsListToString (incs : List String) : String :=
  pyJoin " " (incs.map (fun p => "-I " ++ p))

def generateThriftRules (cfg : Config) (env : Env) (st : GenState) : GenState :=
  let incs := incsListToString cfg.thriftIncs
  let thrift := if strStarts "//" cfg.thrift then
      ((cfg.thrift.replace "//" (env.buildDir ++ "/")).replace ":" "/")
    else cfg.thrift
  generateRule env "thrift"
      (thrift ++ (" --gen " ++ (cfg.thriftGenParams ++ (" -I . " ++ (incs ++ (" -I `dirname ${in}` -out " ++ (env.buildDir ++ "/`dirname ${in}` ${in}")))))))
      (some "THRIFT ${in}") none false none false none none none st

def generatePythonRules (env : Env) (st : GenState) : GenState :=
  let st := addRule "pythonbasedir = __pythonbasedir__\n" st
  let st := generateRule env "pythonlibrary"
      (toolchainCommand env "python_library" "" "${pythonbasedir} ${out} ${in}")
      (some "PYTHON LIBRARY ${out}") none false none false none none none st
  generateRule env "pythonbinary"
      (toolchainCommand env "python_binary" "" "${pythonbasedir} ${mainentry} ${out} ${in}")
      (some "PYTHON BINARY ${out}") none false none false none none none st

def generateGoRules (cfg : Config) (env : Env) (st : GenState) : GenState :=
  if truthy cfg.goHome && truthy cfg.go then
    let st := addRule "pool golang_pool\n  depth = 1" st
    let goPath := normpath (abspath env.cwd cfg.goHome)
    let pfxOutRel : String × String :=
      if cfg.goModuleEnabled then
        if truthy cfg.goModuleRelpath then
          ("cd " ++ (cfg.goModuleRelpath ++ (" && " ++ relpathStr env.cwd cfg.go cfg.goModuleRelpath)),
           pjoin (relpathStr env.cwd "./" cfg.goModuleRelpath) "")
        else (cfg.go, "")
      else ("GOPATH=" ++ (goPath ++ (" " ++ cfg.go)), "")
    let st := generateRule env "gopackage"
        (pfxOutRel.1 ++ " install ${extra_goflags} ${package}")
        (some "GOLANG PACKAGE ${package}") none false (some "golang_pool") false none none none st
    let st := generateRule env "gocommand"
        (pfxOutRel.1 ++ (" build -o " ++ (pfxOutRel.2 ++ "${out} ${extra_goflags} ${package}")))
        (some "GOLANG COMMAND ${package}") none false (some "golang_pool") false none none none st
    generateRule env "gotest"
        (pfxOutRel.1 ++ (" test -c -o " ++ (pfxOutRel.2 ++ "${out} ${extra_goflags} ${package}")))
        (some "GOLANG TEST ${package}") none false (some "golang_pool") false none none none st
  else st

def generateShellRules (env : Env) (st : GenState) : GenState :=
  let st := generateRule env "shelltest" (toolchainCommand env "shell_test" "" "")
      (some "SHELL TEST ${out}") none false none false none none none st
  generateRule env "shelltestdata"
      (toolchainCommand env "shell_testdata" "" "${out} ${in} ${testdata}")
      (some "SHELL TEST DATA ${out}") none false none false none none none st

def generateLexYaccRules (env : Env) (st : GenState) : GenState :=
  let st := generateRule env "lex" "flex ${lexflags} -o ${out} ${in}"
      (some "LEX ${in}") none false none false none none none st
  generateRule env "yacc" "bison ${yaccflags} -o ${out} ${in}"
      (some "YACC ${in}") none false none false none none none st

def generatePackageRules (env : Env) (st : GenState) : GenState :=
  let st := generateRule env "package"
      (toolchainCommand env "package" "" "${out} ${in} ${entries}")
      (some "PACKAGE ${out}") none false none false none none none st
  let st := generateRule env "package_tar"
      "tar -c -f ${out} ${tarflags} -C ${packageroot} ${entries}"
      (some "TAR ${out}") none false none false none none none st
  generateRule env "package_zip"
      "cd ${packageroot} && zip -q temp_archive.zip ${entries} && cd - && mv ${packageroot}/temp_archive.zip ${out}"
      (some "ZIP ${out}") none false none false none none none st

def generateVersionRules (env : Env) (st : GenState) : GenState :=
  let st := generateRule env "scm"
      (toolchainCommand env "scm" "" "${out} ${revision} ${url} ${profile} \"${compiler}\"")
      (some "SCM ${out}") none false none false none none none st
  let scm := pjoin env.buildDir "scm.cc"
  let st := addRule ("build " ++ (scm ++ (": scm\n  revision = " ++ (env.scmRevision ++ ("\n  url = " ++ (env.scmUrl ++ ("\n  profile = " ++ (env.profile ++ ("\n  compiler = " ++ (env.platformCc ++ (" " ++ (env.platformCcVersion ++ "\n")))))))))))) st
  addRule ("build " ++ ((scm ++ ".o") ++ (": cxx " ++ (scm ++ "\n  cppflags = -w -O2\n  cxx_warnings =\n")))) st

/-- `generate`: the whole header-generation pipeline, starting from the fresh
state of a newly constructed generator. -/
def generate (cfg : Config) (env : Env) : Except String GenState :=
  let st := initState env
  let st := generateFileHeader env st
  let st := generateCommonRules env st
  let st := generateCcRules cfg env st
  match generateProtoRules cfg env st with
  | .error e => .error e
  | .ok st =>
    let st := generateResourceRules env st
    let st := generateJavaScalaRules cfg env st
    let st := generateThriftRules cfg env st
    let st := generatePythonRules env st
    let st := generateGoRules cfg env st
    let st := generateShellRules env st
    let st := generateLexYaccRules env st
    let st := generatePackageRules env st
    .ok (generateVersionRules env st)

/-- The text written by `generate_build_script` for the header part
(`writelines` concatenation of the buffer). -/
def manifestText (cfg : Config) (env : Env) : Except String String :=
  (generate cfg env).map (fun st => pyJoin "" st.rulesBuf)

/-! ## Analysis helpers (used only in theorem statements) -/

/-- Python's `s.endswith(p)`. -/
def strEnds (p s : String) : Bool :=
  lpre p.data.reverse s.data.reverse

/-- The lines appended to the buffer by `generate_rule`: the mandatory `rule`
and `command` lines, then one line per truthy optional field. -/
def ruleBlock (env : Env) (name command : String)
    (description depfile : Option String) (generator : Bool)
    (pool : Option String) (restat : Bool)
    (rspfile rspfileContent deps : Option String) : List String :=
  [("rule " ++ name) ++ "\n", ("  command = " ++ command) ++ "\n"]
    ++ (if truthyO description then [("  description = " ++ env.colored (description.getD "")) ++ "\n"] else [])
    ++ (if truthyO depfile then [("  depfile = " ++ depfile.getD "") ++ "\n"] else [])
    ++ (if generator then ["  generator = 1" ++ "\n"] else [])
    ++ (if truthyO pool then [("  pool = " ++ pool.getD "") ++ "\n"] else [])
    ++ (if restat then ["  restat = 1" ++ "\n"] else [])
    ++ (if truthyO rspfile then [("  rspfile = " ++ rspfile.getD "") ++ "\n"] else [])
    ++ (if truthyO rspfileContent then [("  rspfile_content = " ++ rspfileContent.getD "") ++ "\n"] else [])
    ++ (if truthyO deps then [("  deps = " ++ deps.getD "") ++ "\n"] else [])

/-- `buf` contains a line that starts with `p`. -/
def hasLineWith (buf : List String) (p : String) : Prop :=
  ∃ e ∈ buf, strStarts p e = true

/-- A buffer entry that is a pool declaration (`pool <name>` block). -/
def isPoolDecl (e : String) : Bool :=
  strStarts "pool " e

/-- A buffer entry that opens a rule block or binds a rule to a pool. -/
def ruleOrPoolLine (e : String) : Bool :=
  strStarts "rule " e || strStarts "  pool = " e

/-- The declared pool name of a pool-declaration entry. -/
def poolNameC (e : String) : List Char :=
  takeLine (e.data.drop 5)

/-- The buffer of a possibly-failed synthesis run (nothing is emitted on
failure). -/
def bufOf : Except String GenState → List String
  | .ok st => st.rulesBuf
  | .error _ => []

/-! ## Concrete instances for witnesses and counterexamples -/

/-- A concrete environment: ccache absent, colour pass-through. -/
def envW : Env :=
  { buildDir := "build64_release", bladePath := "/opt/blade", bladeRootDir := "/home/u/ws",
    cwd := "/home/u/ws", profile := "release", sysExecutable := "/usr/bin/python",
    platformCc := "gcc", platformCcVersion := "7.5", scmRevision := "1024",
    scmUrl := "svn://repo/trunk", ccacheInstalled := false, parallelJobs := 8,
    warnings := [], cWarnings := [], cxxWarnings := [], cppflagsMgr := [],
    ldflagsMgr := [], colored := fun s => s, osEnviron := [] }

/-- A minimal configuration: every optional feature off. -/
def cfgW : Config :=
  { distccEnabled := false, ccCflags := [], ccCxxflags := [], ccCppflags := [],
    ccLinkflags := [], ccExtraIncs := [], ccSecurecc := "", headerInclusionDeps := false,
    ccArflags := [], linkJobs := 0, protoc := "protoc", protocJava := "",
    protobufIncs := [], protobufJavaIncs := [], protobufGoPath := "",
    protocGoPlugin := "", protocGoSubplugins := [], goHome := "", go := "",
    goModuleEnabled := false, goModuleRelpath := "", javaHome := "", javaVersion := "",
    javaSourceVersion := none, javaTargetVersion := none, jacocoHome := "",
    oneJarBootJar := "", scalaHome := "", thriftIncs := [], thriftGenParams := "",
    thrift := "" }

/-- `cfgW` with go-module mode and a module sub-path configured. -/
def cfgGo : Config :=
  { cfgW with
    goHome := "/home/u/go"
    go := "go"
    goModuleEnabled := true
    goModuleRelpath := "mod" }

/-- `cfgW` with the protoc go plugin configured but `go_home` missing. -/
def cfgPlugNoHome : Config :=
  { cfgW with protocGoPlugin := "/usr/bin/protoc-gen-go" }

/-! ## Reasoning toolkit: prefixes, suffixes, literal inequalities -/

theorem sdata_append (a b : String) : (a ++ b).data = a.data ++ b.data := by
  cases a; cases b; rfl

theorem lpre_iff {l₁ l₂ : List Char} : lpre l₁ l₂ = true ↔ l₁ <+: l₂ := by
  induction l₁ generalizing l₂ with
  | nil => simp [lpre]
  | cons a as ih =>
    cases l₂ with
    | nil => simp [lpre]
    | cons b bs => simp [lpre, List.cons_prefix_cons, ih, Bool.and_eq_true, beq_iff_eq]

theorem strStarts_app_T (p a x : String) (h : lpre p.data a.data = true) :
    strStarts p (a ++ x) = true := by
  rw [strStarts, sdata_append]
  exact lpre_iff.mpr ((lpre_iff.mp h).trans (List.prefix_append _ _))

theorem strStarts_app_F (p a x : String)
    (h : (lpre p.data a.data || lpre a.data p.data) = false) :
    strStarts p (a ++ x) = false := by
  obtain ⟨h1, h2⟩ := Bool.or_eq_false_iff.mp h
  cases hc : strStarts p (a ++ x) with
  | false => rfl
  | true =>
    exfalso
    rw [strStarts, sdata_append] at hc
    have hp : p.data <+: a.data ++ x.data := lpre_iff.mp hc
    rcases le_total p.data.length a.data.length with hle | hle
    · have hpa : p.data <+: a.data :=
        List.prefix_of_prefix_length_le hp (List.prefix_append _ _) hle
      exact absurd (lpre_iff.mpr hpa) (by simp [h1])
    · have hap : a.data <+: p.data :=
        List.prefix_of_prefix_length_le (List.prefix_append _ _) hp hle
      exact absurd (lpre_iff.mpr hap) (by simp [h2])

theorem app_eq_lit_iff_false (a x L : String) (h : lpre a.data L.data = false) :
    (a ++ x = L) ↔ False := by
  constructor
  · intro e
    have hp : a.data <+: L.data := by
      rw [← e, sdata_append]; exact List.prefix_append _ _
    exact absurd (lpre_iff.mpr hp) (by simp [h])
  · exact False.elim

theorem lit_eq_app_iff_false (a x L : String) (h : lpre a.data L.data = false) :
    (L = a ++ x) ↔ False := by
  rw [eq_comm]; exact app_eq_lit_iff_false a x L h

theorem strEnds_app (a b : String) : strEnds b (a ++ b) = true := by
  rw [strEnds, sdata_append, List.reverse_append]
  exact lpre_iff.mpr (List.prefix_append _ _)

/-! ## Structure of one emitted rule block -/

theorem rulesBuf_ite_addRule (c : Bool) (s : String) (st : GenState) :
    (if c then addRule s st else st).rulesBuf
      = st.rulesBuf ++ (if c then [s ++ "\n"] else []) := by
  cases c <;> simp [addRule]

theorem names_ite_addRule (c : Bool) (s : String) (st : GenState) :
    (if c then addRule s st else st).allRuleNames = st.allRuleNames := by
  cases c <;> simp [addRule]

theorem environ_ite_addRule (c : Bool) (s : String) (st : GenState) :
    (if c then addRule s st else st).environ = st.environ := by
  cases c <;> simp [addRule]

theorem generateRule_rulesBuf (env : Env) (name command : String)
    (description depfile : Option String) (generator : Bool)
    (pool : Option String) (restat : Bool)
    (rspfile rspfileContent deps : Option String) (st : GenState) :
    (generateRule env name command description depfile generator pool restat
        rspfile rspfileContent deps st).rulesBuf
      = st.rulesBuf ++ ruleBlock env name command description depfile generator
          pool restat rspfile rspfileContent deps := by
  simp only [generateRule, rulesBuf_ite_addRule]
  simp [addRule, ruleBlock, List.append_assoc]

theorem generateRule_names (env : Env) (name command : String)
    (description depfile : Option String) (generator : Bool)
    (pool : Option String) (restat : Bool)
    (rspfile rspfileContent deps : Option String) (st : GenState) :
    (generateRule env name command description depfile generator pool restat
        rspfile rspfileContent deps st).allRuleNames
      = insertName name st.allRuleNames := by
  simp only [generateRule, names_ite_addRule]
  simp [addRule]

theorem generateRule_environ (env : Env) (name command : String)
    (description depfile : Option String) (generator : Bool)
    (pool : Option String) (restat : Bool)
    (rspfile rspfileContent deps : Option String) (st : GenState) :
    (generateRule env name command description depfile generator pool restat
        rspfile rspfileContent deps st).environ = st.environ := by
  simp only [generateRule, environ_ite_addRule]
  simp [addRule]

theorem mem_ite_singleton {c : Bool} {s e : String} :
    (e ∈ if c then [s] else []) ↔ (c = true ∧ e = s) := by
  cases c <;> simp

theorem seq_iff_data {a b : String} : a = b ↔ a.data = b.data := by
  cases a; cases b
  exact ⟨fun h => by injection h, fun h => congrArg String.mk h⟩

theorem lpre_self_append (a x : String) : strStarts a (a ++ x) = true := by
  rw [strStarts, sdata_append]
  exact lpre_iff.mpr (List.prefix_append _ _)

theorem strEnds_app_right (p a x : String) (h : strEnds p x = true) :
    strEnds p (a ++ x) = true := by
  rw [strEnds, sdata_append, List.reverse_append]
  exact lpre_iff.mpr ((lpre_iff.mp (by rw [strEnds] at h; exact h)).trans
    (List.prefix_append _ _))

/-- Claim C9: every delegated-step command built by `_toolchain_command`
starts with the `PYTHONPATH` library-search-path environment prefix derived
from the builder-tool path, then the optional step-specific environment
prefix, then the out-of-process helper invocation carrying the step name, and
ends with the step-specific positional arguments when supplied and with the
default `${out} ${in}` otherwise. -/
theorem c9_delegated_command (env : Env) (builder pfx sfx : String) :
    let pp := "PYTHONPATH=" ++ (env.bladePath ++ ":$$PYTHONPATH")
    let mid := (if truthy pfx then " " ++ pfx else "")
      ++ (" " ++ (env.sysExecutable ++ (" -m blade.toolchain " ++ (builder ++ " "))))
    let args := if truthy sfx then sfx else "${out} ${in}"
    toolchainCommand env builder pfx sfx = pp ++ (mid ++ args)
    ∧ strStarts pp (toolchainCommand env builder pfx sfx) = true
    ∧ strEnds args (toolchainCommand env builder pfx sfx) = true := by
  have key : ∀ (c : Bool) (x y : String),
      toolchainCommand env builder pfx sfx
        = ("PYTHONPATH=" ++ (env.bladePath ++ ":$$PYTHONPATH"))
            ++ (((if truthy pfx then " " ++ pfx else "")
              ++ (" " ++ (env.sysExecutable ++ (" -m blade.toolchain " ++ (builder ++ " ")))))
            ++ (if truthy sfx then sfx else "${out} ${in}")) := by
    intro _ _ _
    by_cases h1 : truthy pfx <;> by_cases h2 : truthy sfx <;>
      simp [toolchainCommand, pyJoin, h1, h2, seq_iff_data, sdata_append,
        List.append_assoc]
  refine ⟨key true "" "", ?_, ?_⟩
  · rw [key true "" ""]; exact lpre_self_append _ _
  · rw [key true "" ""]
    exact strEnds_app_right _ _ _ (strEnds_app _ _)

theorem addRule_environ (s : String) (st : GenState) :
    (addRule s st).environ = st.environ := rfl

theorem addRule_names (s : String) (st : GenState) :
    (addRule s st).allRuleNames = st.allRuleNames := rfl

/-- Claim C10: when the ccache proxy is detected, `generate_cc_rules` mutates
the process environment (setting `CCACHE_BASEDIR` to the workspace root and
`CCACHE_NOHASHDIR` to `'true'`) and prefixes the C and C++ compiler commands
with `ccache `; when it is not detected, the routine leaves the process
environment unchanged. -/
theorem c10_ccache_frame (cfg : Config) (env : Env) (st : GenState) :
    let cc0 := envGet st.environ "CC" "gcc"
    let cxx0 := envGet st.environ "CXX" "g++"
    (generateCcRules cfg env st).environ
      = (if env.ccacheInstalled then
          envSet "CCACHE_NOHASHDIR" "true" (envSet "CCACHE_BASEDIR" env.bladeRootDir st.environ)
        else st.environ)
    ∧ (∃ t, ("  command = " ++ ((if env.ccacheInstalled then "ccache " ++ cc0 else cc0) ++ t)) ++ "\n"
          ∈ (generateCcRules cfg env st).rulesBuf)
    ∧ (∃ t, ("  command = " ++ ((if env.ccacheInstalled then "ccache " ++ cxx0 else cxx0) ++ t)) ++ "\n"
          ∈ (generateCcRules cfg env st).rulesBuf) := by
  refine ⟨?_, ?_, ?_⟩
  · simp only [generateCcRules, generateCcWarningVars, generateRule_environ,
      addRule_environ, apply_ite GenState.environ, ite_self]
  · refine ⟨" -o ${out} -MMD -MF ${out}.d -c -fPIC "
      ++ (pyJoin " " cfg.ccCflags ++ (" " ++ (pyJoin " " (cfg.ccCppflags ++ env.cppflagsMgr)
      ++ (" ${c_warnings} ${cppflags} "
      ++ (pyJoin " " ((cfg.ccExtraIncs ++ [".", env.buildDir]).map (fun inc => "-I" ++ inc))
      ++ " ${includes} ${in}"))))), ?_⟩
    by_cases hh : cfg.headerInclusionDeps <;> by_cases hl : cfg.linkJobs = 0 <;>
      simp +decide [hh, hl, generateCcRules, generateCcWarningVars, generateRule_rulesBuf,
        rulesBuf_ite_addRule, mem_ite_singleton, ruleBlock, addRule, truthyO, truthy,
        apply_ite GenState.rulesBuf, List.append_assoc]
  · refine ⟨" -o ${out} -MMD -MF ${out}.d -c -fPIC "
      ++ (pyJoin " " cfg.ccCxxflags ++ (" " ++ (pyJoin " " (cfg.ccCppflags ++ env.cppflagsMgr)
      ++ (" ${cxx_warnings} ${cppflags} "
      ++ (pyJoin " " ((cfg.ccExtraIncs ++ [".", env.buildDir]).map (fun inc => "-I" ++ inc))
      ++ " ${includes} ${in}"))))), ?_⟩
    by_cases hh : cfg.headerInclusionDeps <;> by_cases hl : cfg.linkJobs = 0 <;>
      simp +decide [hh, hl, generateCcRules, generateCcWarningVars, generateRule_rulesBuf,
        rulesBuf_ite_addRule, mem_ite_singleton, ruleBlock, addRule, truthyO, truthy,
        apply_ite GenState.rulesBuf, List.append_assoc]

/-- Claim C3, counterexample: registering a rule name that is already
registered does not raise any error — `generate_rule` runs to completion, the
name set silently deduplicates (Python `set.add`), and the duplicate rule text
is emitted a second time.  No `DuplicateRuleError` exists in the code. -/
theorem c3_counterexample :
    let reg := fun st => generateRule envW "copy" "cp -f ${in} ${out}"
      (some "COPY ${in} ${out}") none false none false none none none st
    (reg (reg (initState envW))).allRuleNames = ["copy"]
    ∧ (reg (reg (initState envW))).rulesBuf.count "rule copy\n" = 2 := by
  decide

/-- Claim C3 (amended): registering a rule never fails; the registered-name
set never acquires duplicates (duplicate registration is silently absorbed by
the underlying set), and registering a fresh name appends it to the set. -/
theorem c3_amended (env : Env) (name command : String)
    (description depfile : Option String) (generator : Bool)
    (pool : Option String) (restat : Bool)
    (rspfile rspfileContent deps : Option String) (st : GenState)
    (h : st.allRuleNames.Nodup) :
    let st2 := generateRule env name command description depfile generator pool
        restat rspfile rspfileContent deps st
    st2.allRuleNames.Nodup ∧ name ∈ st2.allRuleNames
    ∧ (name ∉ st.allRuleNames → st2.allRuleNames = st.allRuleNames ++ [name]) := by
  by_cases hm : name ∈ st.allRuleNames <;>
    simp [generateRule_names, insertName, hm, h, List.nodup_append]

/-- Witness for `c3_amended` at a concrete fresh registration. -/
theorem c3_witness :
    (initState envW).allRuleNames.Nodup ∧
    (let st2 := generateRule envW "stamp" "touch ${out}" (some "STAMP ${out}")
        none false none false none none none (initState envW)
     st2.allRuleNames.Nodup ∧ "stamp" ∈ st2.allRuleNames
       ∧ ("stamp" ∉ (initState envW).allRuleNames →
            st2.allRuleNames = (initState envW).allRuleNames ++ ["stamp"])) :=
  ⟨by decide, c3_amended envW "stamp" "touch ${out}" (some "STAMP ${out}")
      none false none false none none none (initState envW) (by decide)⟩

/-- Claim C2, counterexample: no configuration toggle controls dependency-file
tracking — even under the minimal configuration (every feature off) the `cc`
compile rule carries `depfile = ${out}.d` and `deps = gcc`. -/
theorem c2_counterexample :
    ("  depfile = ${out}.d\n") ∈ (generateCcRules cfgW envW (initState envW)).rulesBuf
    ∧ ("  deps = gcc\n") ∈ (generateCcRules cfgW envW (initState envW)).rulesBuf := by
  decide

/-- Claim C2 (amended): the `cc`/`cxx` compile rules unconditionally carry
`depfile = ${out}.d` and `deps = gcc` in every configuration (there is no
configuration switch for dependency-file tracking); at the rule-emitter level
a rule generated without a depfile/deps value (`None` or `''`) contains no
`depfile` and no `deps` line at all — absence, not an empty value. -/
theorem c2_amended (cfg : Config) (env : Env) (name command : String)
    (description : Option String) (generator : Bool)
    (pool : Option String) (restat : Bool) :
    ("  depfile = ${out}.d\n") ∈ (generateCcRules cfg env (initState env)).rulesBuf
    ∧ ("  deps = gcc\n") ∈ (generateCcRules cfg env (initState env)).rulesBuf
    ∧ ¬ hasLineWith (generateRule env name command description none generator
          pool restat none none none (initState env)).rulesBuf "  depfile = "
    ∧ ¬ hasLineWith (generateRule env name command description none generator
          pool restat none none none (initState env)).rulesBuf "  deps = "
    ∧ ¬ hasLineWith (generateRule env name command description (some "") generator
          pool restat none none (some "") (initState env)).rulesBuf "  depfile = "
    ∧ ¬ hasLineWith (generateRule env name command description (some "") generator
          pool restat none none (some "") (initState env)).rulesBuf "  deps = " := by
  refine ⟨?_, ?_, ?_, ?_, ?_, ?_⟩
  case refine_1 | refine_2 =>
    by_cases hh : cfg.headerInclusionDeps <;> by_cases hl : cfg.linkJobs = 0 <;>
      simp +decide [hh, hl, generateCcRules, generateCcWarningVars, generateRule_rulesBuf,
        rulesBuf_ite_addRule, mem_ite_singleton, ruleBlock, addRule, truthyO, truthy,
        apply_ite GenState.rulesBuf, List.append_assoc]
  all_goals
    simp +decide [hasLineWith, generateRule_rulesBuf, initState, ruleBlock,
      mem_ite_singleton, strStarts_app_T, strStarts_app_F, String.append_assoc,
      or_and_right, exists_or, and_assoc, exists_and_left, exists_eq_left]

/-- Claim C4: when link-job limiting is requested (`link_jobs = n ≠ 0`) and
the available parallelism is `m`, `generate_cc_rules` declares exactly one
pool — `link_pool` with depth `min n m` — and binds both the `link` and
`solink` rules (and only them) to it; when it is not requested, it declares no
pool at all and no rule of the routine carries a pool line. -/
theorem c4_link_pool (cfg : Config) (env : Env) :
    let buf := (generateCcRules cfg env (initState env)).rulesBuf
    buf.filter isPoolDecl
      = (if cfg.linkJobs = 0 then []
         else [("pool link_pool\n  depth = " ++ toString (min cfg.linkJobs env.parallelJobs)) ++ "\n"])
    ∧ buf.filter ruleOrPoolLine
      = ["rule cc\n", "rule cxx\n"]
        ++ (if cfg.headerInclusionDeps then ["rule cchdrs\n", "rule cxxhdrs\n"] else [])
        ++ ["rule securecccompile\n", "rule securecc\n", "rule ar\n", "rule link\n"]
        ++ (if cfg.linkJobs = 0 then [] else ["  pool = link_pool\n"])
        ++ ["rule solink\n"]
        ++ (if cfg.linkJobs = 0 then [] else ["  pool = link_pool\n"])
        ++ ["rule strip\n"] := by
  by_cases hh : cfg.headerInclusionDeps <;> by_cases hl : cfg.linkJobs = 0 <;>
    simp +decide [hh, hl, generateCcRules, generateCcWarningVars, generateRule_rulesBuf,
      rulesBuf_ite_addRule, mem_ite_singleton, ruleBlock, addRule, truthyO, truthy,
      isPoolDecl, ruleOrPoolLine, strStarts_app_T, strStarts_app_F, initState,
      apply_ite GenState.rulesBuf, List.append_assoc, String.append_assoc,
      List.filter_append]

/-! ## Well-formedness of `relpath` output (no trailing separator) -/

theorem splitChar_not_mem (c : Char) (l : List Char) :
    ∀ p ∈ splitChar c l, c ∉ p := by
  induction l with
  | nil => intro p hp; simp [splitChar] at hp; simp [hp]
  | cons a as ih =>
    intro p hp
    simp only [splitChar] at hp
    cases hsp : splitChar c as with
    | nil => rw [hsp] at hp; simp at hp; simp [hp]
    | cons h t =>
      rw [hsp] at hp
      rw [hsp] at ih
      by_cases hac : a == c
      · simp only [if_pos hac] at hp
        rcases List.mem_cons.mp hp with he | hm
        · simp [he]
        · exact ih p hm
      · simp only [if_neg hac] at hp
        rcases List.mem_cons.mp hp with he | hm
        · subst he
          intro hcm
          rcases List.mem_cons.mp hcm with he2 | hm2
          · exact hac (by simp [he2])
          · exact ih h (List.mem_cons_self h t) hm2
        · exact ih p (List.mem_cons_of_mem h hm)

theorem joinSlashC_wf (ps : List (List Char)) (hne : ps ≠ [])
    (h : ∀ p ∈ ps, p ≠ [] ∧ '/' ∉ p) :
    joinSlashC ps ≠ [] ∧ (joinSlashC ps).getLast? ≠ some '/' := by
  induction ps with
  | nil => contradiction
  | cons x xs ih =>
    cases xs with
    | nil =>
      obtain ⟨hx, hsl⟩ := h x (List.mem_cons_self x [])
      refine ⟨by simpa [joinSlashC] using hx, ?_⟩
      rw [joinSlashC, List.getLast?_eq_getLast_of_ne_nil hx]
      intro hc
      exact hsl (by rw [← Option.some.injEq _ '/' |>.mp hc]; exact List.getLast_mem hx)
    | cons y ys =>
      have hys := ih (by simp)
        (fun p hp => h p (List.mem_cons_of_mem x hp))
      obtain ⟨hne2, hlast⟩ := hys
      constructor
      · simp [joinSlashC]
      · rw [joinSlashC]
        rw [List.getLast?_append_of_ne_nil x (by simp)]
        cases hjs : joinSlashC (y :: ys) with
        | nil => exact absurd hjs hne2
        | cons j js =>
          rw [List.getLast?_cons_cons]
          rw [hjs] at hlast
          exact hlast

theorem relpath_wf (cwd path start : String) :
    relpathStr cwd path start ≠ ""
    ∧ (relpathStr cwd path start).data.getLast? ≠ some '/' := by
  have key : ∀ (rl : List (List Char)), (∀ p ∈ rl, p ≠ [] ∧ '/' ∉ p) →
      (if rl = [] then "." else String.mk (joinSlashC rl)) ≠ ""
      ∧ ((if rl = [] then "." else String.mk (joinSlashC rl))).data.getLast? ≠ some '/' := by
    intro rl hp
    by_cases hrl : rl = []
    · subst hrl; constructor <;> decide
    · obtain ⟨hne, hlast⟩ := joinSlashC_wf rl hrl hp
      rw [if_neg hrl]
      refine ⟨fun hc => hne ?_, hlast⟩
      exact seq_iff_data.mp hc
  have h2 : relpathStr cwd path start =
      (if (List.replicate ((stripComps (abspath cwd start)).length
            - commonLen (stripComps (abspath cwd start)) (stripComps (abspath cwd path))) ['.', '.']
          ++ (stripComps (abspath cwd path)).drop
              (commonLen (stripComps (abspath cwd start)) (stripComps (abspath cwd path)))) = []
        then "."
        else String.mk (joinSlashC
          (List.replicate ((stripComps (abspath cwd start)).length
            - commonLen (stripComps (abspath cwd start)) (stripComps (abspath cwd path))) ['.', '.']
          ++ (stripComps (abspath cwd path)).drop
              (commonLen (stripComps (abspath cwd start)) (stripComps (abspath cwd path)))))) := rfl
  rw [h2]
  apply key
  intro p hp
  rcases List.mem_append.mp hp with hr | hd
  · have := List.eq_of_mem_replicate hr
    subst this
    constructor <;> decide
  · have hmem : p ∈ stripComps (abspath cwd path) := List.drop_subset _ _ hd
    rw [stripComps] at hmem
    obtain ⟨hsp, hnb⟩ := List.mem_filter.mp hmem
    refine ⟨by simpa using hnb, splitChar_not_mem '/' _ p hsp⟩

theorem pjoin_empty_of (r : String) (h1 : r ≠ "") (h2 : r.data.getLast? ≠ some '/') :
    pjoin r "" = r ++ "/" := by
  simp +decide [pjoin, h1, h2]

/-- Claim C1: with go-module mode enabled and a non-empty module sub-path `p`,
the emitted `gocommand` and `gotest` commands change the working directory to
`p` first (`cd p && …`), invoke the go binary through the path rewritten
relative to `p` (`os.path.relpath(go, p)`), and prefix `${out}` with
`os.path.relpath('./', p)` terminated by a path separator, so the output lands
correctly after the directory change. -/
theorem c1_go_module_subpath (cfg : Config) (env : Env)
    (h1 : truthy cfg.goHome = true) (h2 : truthy cfg.go = true)
    (h3 : cfg.goModuleEnabled = true) (h4 : truthy cfg.goModuleRelpath = true) :
    let p := cfg.goModuleRelpath
    let cdPfx := "cd " ++ (p ++ (" && " ++ relpathStr env.cwd cfg.go p))
    let outPfx := relpathStr env.cwd "./" p ++ "/"
    (generateGoRules cfg env (initState env)).rulesBuf
      = ["pool golang_pool\n  depth = 1\n",
         "rule gopackage\n",
         ("  command = " ++ (cdPfx ++ " install ${extra_goflags} ${package}")) ++ "\n",
         ("  description = " ++ env.colored "GOLANG PACKAGE ${package}") ++ "\n",
         "  pool = golang_pool\n",
         "rule gocommand\n",
         ("  command = " ++ (cdPfx ++ (" build -o " ++ (outPfx ++ "${out} ${extra_goflags} ${package}")))) ++ "\n",
         ("  description = " ++ env.colored "GOLANG COMMAND ${package}") ++ "\n",
         "  pool = golang_pool\n",
         "rule gotest\n",
         ("  command = " ++ (cdPfx ++ (" test -c -o " ++ (outPfx ++ "${out} ${extra_goflags} ${package}")))) ++ "\n",
         ("  description = " ++ env.colored "GOLANG TEST ${package}") ++ "\n",
         "  pool = golang_pool\n"] := by
  have hw := relpath_wf env.cwd "./" cfg.goModuleRelpath
  have hpj := pjoin_empty_of _ hw.1 hw.2
  simp +decide [generateGoRules, h1, h2, h3, h4, hpj, generateRule_rulesBuf,
    ruleBlock, addRule, initState, truthyO, String.append_assoc]

/-- Witness for `c1_go_module_subpath`: a concrete go-module configuration
with sub-path `mod`, including the concretely evaluated relative paths. -/
theorem c1_witness :
    truthy cfgGo.goHome = true ∧ truthy cfgGo.go = true
    ∧ cfgGo.goModuleEnabled = true ∧ truthy cfgGo.goModuleRelpath = true
    ∧ relpathStr envW.cwd cfgGo.go cfgGo.goModuleRelpath = "../go"
    ∧ relpathStr envW.cwd "./" cfgGo.goModuleRelpath = ".."
    ∧ (let p := cfgGo.goModuleRelpath
       let cdPfx := "cd " ++ (p ++ (" && " ++ relpathStr envW.cwd cfgGo.go p))
       let outPfx := relpathStr envW.cwd "./" p ++ "/"
       (generateGoRules cfgGo envW (initState envW)).rulesBuf
        = ["pool golang_pool\n  depth = 1\n",
           "rule gopackage\n",
           ("  command = " ++ (cdPfx ++ " install ${extra_goflags} ${package}")) ++ "\n",
           ("  description = " ++ envW.colored "GOLANG PACKAGE ${package}") ++ "\n",
           "  pool = golang_pool\n",
           "rule gocommand\n",
           ("  command = " ++ (cdPfx ++ (" build -o " ++ (outPfx ++ "${out} ${extra_goflags} ${package}")))) ++ "\n",
           ("  description = " ++ envW.colored "GOLANG COMMAND ${package}") ++ "\n",
           "  pool = golang_pool\n",
           "rule gotest\n",
           ("  command = " ++ (cdPfx ++ (" test -c -o " ++ (outPfx ++ "${out} ${extra_goflags} ${package}")))) ++ "\n",
           ("  description = " ++ envW.colored "GOLANG TEST ${package}") ++ "\n",
           "  pool = golang_pool\n"]) :=
  ⟨by decide, by decide, by decide, by decide, by decide, by decide,
    c1_go_module_subpath cfgGo envW (by decide) (by decide) (by decide) (by decide)⟩

/-! ## Pool declarations and `protogo` membership, routine by routine -/

theorem takeLine_append_of_mem {l m : List Char} (h : '\n' ∈ l) :
    takeLine (l ++ m) = takeLine l := by
  induction l with
  | nil => simp at h
  | cons c cs ih =>
    by_cases hc : c == '\n'
    · simp [takeLine, hc]
    · have : '\n' ∈ cs := by
        rcases List.mem_cons.mp h with he | hm
        · exact absurd (by simp [← he]) hc
        · exact hm
      simp [takeLine, hc, ih this]

theorem poolNameC_link (x : String) :
    poolNameC ("pool link_pool\n  depth = " ++ x) = "link_pool".data := by
  rw [poolNameC, sdata_append, List.drop_append_of_le_length (by decide)]
  rw [takeLine_append_of_mem (by decide)]
  decide

theorem fileHeader_pool (env : Env) (st : GenState) :
    (generateFileHeader env st).rulesBuf.filter isPoolDecl
      = st.rulesBuf.filter isPoolDecl ++ ["pool heavy_pool\n  depth = 1\n\n"] := by
  simp +decide [generateFileHeader, addRule, isPoolDecl, strStarts_app_T,
    strStarts_app_F, List.filter_append, String.append_assoc, List.append_assoc]

theorem commonRules_pool (env : Env) (st : GenState) :
    (generateCommonRules env st).rulesBuf.filter isPoolDecl
      = st.rulesBuf.filter isPoolDecl := by
  simp +decide [generateCommonRules, generateRule_rulesBuf, ruleBlock, truthyO, truthy,
    isPoolDecl, strStarts_app_T, strStarts_app_F, List.filter_append,
    String.append_assoc, List.append_assoc]

theorem ccRules_pool (cfg : Config) (env : Env) (st : GenState) :
    (generateCcRules cfg env st).rulesBuf.filter isPoolDecl
      = st.rulesBuf.filter isPoolDecl
        ++ (if cfg.linkJobs = 0 then []
            else [("pool link_pool\n  depth = " ++ toString (min cfg.linkJobs env.parallelJobs)) ++ "\n"]) := by
  by_cases hh : cfg.headerInclusionDeps <;> by_cases hl : cfg.linkJobs = 0 <;>
    simp +decide [hh, hl, generateCcRules, generateCcWarningVars, generateRule_rulesBuf,
      rulesBuf_ite_addRule, ruleBlock, addRule, truthyO, truthy, isPoolDecl,
      strStarts_app_T, strStarts_app_F, apply_ite GenState.rulesBuf,
      List.append_assoc, String.append_assoc, List.filter_append]

theorem resourceRules_pool (env : Env) (st : GenState) :
    (generateResourceRules env st).rulesBuf.filter isPoolDecl
      = st.rulesBuf.filter isPoolDecl := by
  simp +decide [generateResourceRules, generateRule_rulesBuf, ruleBlock, truthyO, truthy,
    isPoolDecl, strStarts_app_T, strStarts_app_F, List.filter_append,
    String.append_assoc, List.append_assoc]

theorem javaScalaRules_pool (cfg : Config) (env : Env) (st : GenState) :
    (generateJavaScalaRules cfg env st).rulesBuf.filter isPoolDecl
      = st.rulesBuf.filter isPoolDecl := by
  simp +decide [generateJavaScalaRules, generateJavacRules, generateJavaResourceRules,
    generateJavaTestRules, generateJavaBinaryRules, generateScalaRules,
    generateRule_rulesBuf, ruleBlock, addRule, truthyO, truthy,
    isPoolDecl, strStarts_app_T, strStarts_app_F, List.filter_append,
    String.append_assoc, List.append_assoc]

theorem thriftRules_pool (cfg : Config) (env : Env) (st : GenState) :
    (generateThriftRules cfg env st).rulesBuf.filter isPoolDecl
      = st.rulesBuf.filter isPoolDecl := by
  simp +decide [generateThriftRules, generateRule_rulesBuf, ruleBlock, truthyO, truthy,
    isPoolDecl, strStarts_app_T, strStarts_app_F, List.filter_append,
    String.append_assoc, List.append_assoc]

theorem pythonRules_pool (env : Env) (st : GenState) :
    (generatePythonRules env st).rulesBuf.filter isPoolDecl
      = st.rulesBuf.filter isPoolDecl := by
  simp +decide [generatePythonRules, generateRule_rulesBuf, ruleBlock, addRule,
    truthyO, truthy, isPoolDecl, strStarts_app_T, strStarts_app_F,
    List.filter_append, String.append_assoc, List.append_assoc]

theorem goRules_pool (cfg : Config) (env : Env) (st : GenState) :
    (generateGoRules cfg env st).rulesBuf.filter isPoolDecl
      = st.rulesBuf.filter isPoolDecl
        ++ (if truthy cfg.goHome && truthy cfg.go then ["pool golang_pool\n  depth = 1\n"] else []) := by
  by_cases hgg : truthy cfg.goHome && truthy cfg.go <;>
    simp +decide [hgg, generateGoRules, generateRule_rulesBuf, ruleBlock, addRule,
      isPoolDecl, strStarts_app_T, strStarts_app_F,
      List.filter_append, String.append_assoc, List.append_assoc]

theorem shellRules_pool (env : Env) (st : GenState) :
    (generateShellRules env st).rulesBuf.filter isPoolDecl
      = st.rulesBuf.filter isPoolDecl := by
  simp +decide [generateShellRules, generateRule_rulesBuf, ruleBlock, truthyO, truthy,
    isPoolDecl, strStarts_app_T, strStarts_app_F, List.filter_append,
    String.append_assoc, List.append_assoc]

theorem lexYaccRules_pool (env : Env) (st : GenState) :
    (generateLexYaccRules env st).rulesBuf.filter isPoolDecl
      = st.rulesBuf.filter isPoolDecl := by
  simp +decide [generateLexYaccRules, generateRule_rulesBuf, ruleBlock, truthyO, truthy,
    isPoolDecl, strStarts_app_T, strStarts_app_F, List.filter_append,
    String.append_assoc, List.append_assoc]

theorem packageRules_pool (env : Env) (st : GenState) :
    (generatePackageRules env st).rulesBuf.filter isPoolDecl
      = st.rulesBuf.filter isPoolDecl := by
  simp +decide [generatePackageRules, generateRule_rulesBuf, ruleBlock, truthyO, truthy,
    isPoolDecl, strStarts_app_T, strStarts_app_F, List.filter_append,
    String.append_assoc, List.append_assoc]

theorem versionRules_pool (env : Env) (st : GenState) :
    (generateVersionRules env st).rulesBuf.filter isPoolDecl
      = st.rulesBuf.filter isPoolDecl := by
  simp +decide [generateVersionRules, generateRule_rulesBuf, ruleBlock, addRule,
    truthyO, truthy, isPoolDecl, strStarts_app_T, strStarts_app_F,
    List.filter_append, String.append_assoc, List.append_assoc]

theorem fileHeader_protogo (env : Env) (st : GenState) :
    ("rule protogo\n" ∈ (generateFileHeader env st).rulesBuf)
      ↔ "rule protogo\n" ∈ st.rulesBuf := by
  simp +decide [generateFileHeader, addRule, lit_eq_app_iff_false,
    String.append_assoc, List.append_assoc]

theorem commonRules_protogo (env : Env) (st : GenState) :
    ("rule protogo\n" ∈ (generateCommonRules env st).rulesBuf)
      ↔ "rule protogo\n" ∈ st.rulesBuf := by
  simp +decide [generateCommonRules, generateRule_rulesBuf, ruleBlock,
    mem_ite_singleton, lit_eq_app_iff_false, String.append_assoc, List.append_assoc]

theorem ccRules_protogo (cfg : Config) (env : Env) (st : GenState) :
    ("rule protogo\n" ∈ (generateCcRules cfg env st).rulesBuf)
      ↔ "rule protogo\n" ∈ st.rulesBuf := by
  by_cases hh : cfg.headerInclusionDeps <;> by_cases hl : cfg.linkJobs = 0 <;>
    simp +decide [hh, hl, generateCcRules, generateCcWarningVars, generateRule_rulesBuf,
      rulesBuf_ite_addRule, ruleBlock, addRule, mem_ite_singleton,
      lit_eq_app_iff_false, apply_ite GenState.rulesBuf,
      List.append_assoc, String.append_assoc]

theorem resourceRules_protogo (env : Env) (st : GenState) :
    ("rule protogo\n" ∈ (generateResourceRules env st).rulesBuf)
      ↔ "rule protogo\n" ∈ st.rulesBuf := by
  simp +decide [generateResourceRules, generateRule_rulesBuf, ruleBlock,
    mem_ite_singleton, lit_eq_app_iff_false, String.append_assoc, List.append_assoc]

theorem javaScalaRules_protogo (cfg : Config) (env : Env) (st : GenState) :
    ("rule protogo\n" ∈ (generateJavaScalaRules cfg env st).rulesBuf)
      ↔ "rule protogo\n" ∈ st.rulesBuf := by
  simp +decide [generateJavaScalaRules, generateJavacRules, generateJavaResourceRules,
    generateJavaTestRules, generateJavaBinaryRules, generateScalaRules,
    generateRule_rulesBuf, ruleBlock, addRule, mem_ite_singleton,
    lit_eq_app_iff_false, String.append_assoc, List.append_assoc]

theorem thriftRules_protogo (cfg : Config) (env : Env) (st : GenState) :
    ("rule protogo\n" ∈ (generateThriftRules cfg env st).rulesBuf)
      ↔ "rule protogo\n" ∈ st.rulesBuf := by
  simp +decide [generateThriftRules, generateRule_rulesBuf, ruleBlock,
    mem_ite_singleton, lit_eq_app_iff_false, String.append_assoc, List.append_assoc]

theorem pythonRules_protogo (env : Env) (st : GenState) :
    ("rule protogo\n" ∈ (generatePythonRules env st).rulesBuf)
      ↔ "rule protogo\n" ∈ st.rulesBuf := by
  simp +decide [generatePythonRules, generateRule_rulesBuf, ruleBlock, addRule,
    mem_ite_singleton, lit_eq_app_iff_false, String.append_assoc, List.append_assoc]

theorem goRules_protogo (cfg : Config) (env : Env) (st : GenState) :
    ("rule protogo\n" ∈ (generateGoRules cfg env st).rulesBuf)
      ↔ "rule protogo\n" ∈ st.rulesBuf := by
  by_cases hgg : truthy cfg.goHome && truthy cfg.go <;>
    simp +decide [hgg, generateGoRules, generateRule_rulesBuf, ruleBlock, addRule,
      mem_ite_singleton, lit_eq_app_iff_false, String.append_assoc, List.append_assoc]

theorem shellRules_protogo (env : Env) (st : GenState) :
    ("rule protogo\n" ∈ (generateShellRules env st).rulesBuf)
      ↔ "rule protogo\n" ∈ st.rulesBuf := by
  simp +decide [generateShellRules, generateRule_rulesBuf, ruleBlock,
    mem_ite_singleton, lit_eq_app_iff_false, String.append_assoc, List.append_assoc]

theorem lexYaccRules_protogo (env : Env) (st : GenState) :
    ("rule protogo\n" ∈ (generateLexYaccRules env st).rulesBuf)
      ↔ "rule protogo\n" ∈ st.rulesBuf := by
  simp +decide [generateLexYaccRules, generateRule_rulesBuf, ruleBlock,
    mem_ite_singleton, lit_eq_app_iff_false, String.append_assoc, List.append_assoc]

theorem packageRules_protogo (env : Env) (st : GenState) :
    ("rule protogo\n" ∈ (generatePackageRules env st).rulesBuf)
      ↔ "rule protogo\n" ∈ st.rulesBuf := by
  simp +decide [generatePackageRules, generateRule_rulesBuf, ruleBlock,
    mem_ite_singleton, lit_eq_app_iff_false, String.append_assoc, List.append_assoc]

theorem versionRules_protogo (env : Env) (st : GenState) :
    ("rule protogo\n" ∈ (generateVersionRules env st).rulesBuf)
      ↔ "rule protogo\n" ∈ st.rulesBuf := by
  simp +decide [generateVersionRules, generateRule_rulesBuf, ruleBlock, addRule,
    mem_ite_singleton, lit_eq_app_iff_false, String.append_assoc, List.append_assoc]

theorem protoRules_ok_no_plugin (cfg : Config) (env : Env) (st : GenState)
    (hp : truthy cfg.protocGoPlugin = false) :
    ∃ st', generateProtoRules cfg env st = .ok st'
      ∧ st'.rulesBuf.filter isPoolDecl = st.rulesBuf.filter isPoolDecl
      ∧ (("rule protogo\n" ∈ st'.rulesBuf) ↔ "rule protogo\n" ∈ st.rulesBuf) := by
  cases hE : generateProtoRules cfg env st with
  | error e => exact absurd hE (by simp [generateProtoRules, hp])
  | ok st' =>
    simp only [generateProtoRules, hp, Bool.false_eq_true, if_false,
      Except.ok.injEq] at hE
    refine ⟨st', rfl, ?_, ?_⟩ <;> rw [← hE] <;>
      simp +decide [generateRule_rulesBuf, ruleBlock, addRule,
        mem_ite_singleton, lit_eq_app_iff_false, isPoolDecl, strStarts_app_T,
        strStarts_app_F, List.filter_append, String.append_assoc, List.append_assoc]

theorem protoRules_error (cfg : Config) (env : Env) (st : GenState)
    (hp : truthy cfg.protocGoPlugin = true) (hg : truthy cfg.goHome = false) :
    generateProtoRules cfg env st
      = .error "go_home is not configured in either BLADE_ROOT or BLADE_ROOT.local." := by
  simp [generateProtoRules, hp, hg]

theorem protoRules_ok_plugin (cfg : Config) (env : Env) (st : GenState)
    (hp : truthy cfg.protocGoPlugin = true) (hg : truthy cfg.goHome = true) :
    ∃ st', generateProtoRules cfg env st = .ok st'
      ∧ st'.rulesBuf.filter isPoolDecl = st.rulesBuf.filter isPoolDecl
      ∧ "rule protogo\n" ∈ st'.rulesBuf := by
  cases hE : generateProtoRules cfg env st with
  | error e => exact absurd hE (by simp [generateProtoRules, hp, hg])
  | ok st' =>
    simp only [generateProtoRules, hp, hg, Bool.not_true, Bool.false_eq_true,
      if_true, if_false, Except.ok.injEq] at hE
    refine ⟨st', rfl, ?_, ?_⟩ <;> rw [← hE] <;>
      simp +decide [generateRule_rulesBuf, ruleBlock, addRule,
        mem_ite_singleton, lit_eq_app_iff_false, isPoolDecl, strStarts_app_T,
        strStarts_app_F, List.filter_append, String.append_assoc, List.append_assoc]

/-- Claim C5, counterexample: the code has no pool registry and no conflict
check — pool declarations are appended to the buffer as raw text, so
"declaring" the same pool name twice with different depths succeeds silently
and both conflicting declarations appear in the manifest; no
`ConflictingPoolError` exists. -/
theorem c5_counterexample :
    let st := addRule "pool p\n  depth = 2" (addRule "pool p\n  depth = 1" (initState envW))
    st.rulesBuf = ["pool p\n  depth = 1\n", "pool p\n  depth = 2\n"]
    ∧ (st.rulesBuf.filter isPoolDecl).map poolNameC = ["p".data, "p".data] := by
  decide

/-- Claim C5 (amended): although no conflict check exists, the generator
itself declares each pool name at most once per session: in the manifest
emitted by any run of `generate`, the declared pool names (`heavy_pool`, and
possibly `link_pool` and `golang_pool`) are pairwise distinct, so at most one
depth appears for any name. -/
theorem c5_amended (cfg : Config) (env : Env) :
    (((bufOf (generate cfg env)).filter isPoolDecl).map poolNameC).Nodup := by
  by_cases hp : truthy cfg.protocGoPlugin
  · by_cases hg : truthy cfg.goHome
    · obtain ⟨stP, hE, hPf, _⟩ := protoRules_ok_plugin cfg env
        (generateCcRules cfg env (generateCommonRules env (generateFileHeader env (initState env)))) hp hg
      simp only [generate, hE, bufOf]
      rw [versionRules_pool, packageRules_pool, lexYaccRules_pool, shellRules_pool,
        goRules_pool, pythonRules_pool, thriftRules_pool, javaScalaRules_pool,
        resourceRules_pool, hPf, ccRules_pool, commonRules_pool, fileHeader_pool]
      by_cases hl : cfg.linkJobs = 0 <;> by_cases hgo : truthy cfg.go <;>
        simp +decide [hl, hg, hgo, initState, poolNameC_link, String.append_assoc]
    · have hg' : truthy cfg.goHome = false := by simpa using hg
      simp only [generate, protoRules_error cfg env _ hp hg', bufOf]
      simp
  · have hp' : truthy cfg.protocGoPlugin = false := by simpa using hp
    obtain ⟨stP, hE, hPf, _⟩ := protoRules_ok_no_plugin cfg env
      (generateCcRules cfg env (generateCommonRules env (generateFileHeader env (initState env)))) hp'
    simp only [generate, hE, bufOf]
    rw [versionRules_pool, packageRules_pool, lexYaccRules_pool, shellRules_pool,
      goRules_pool, pythonRules_pool, thriftRules_pool, javaScalaRules_pool,
      resourceRules_pool, hPf, ccRules_pool, commonRules_pool, fileHeader_pool]
    by_cases hl : cfg.linkJobs = 0 <;> by_cases hg : truthy cfg.goHome <;>
      by_cases hgo : truthy cfg.go <;>
      simp +decide [hl, hg, hgo, initState, poolNameC_link, String.append_assoc]

/-- Claim C6: synthesis is deterministic and serialization idempotent.  The
embedding makes every input of the pipeline explicit (configuration,
environment probes, scm state, working directory, parallelism), and
`generate` / `manifestText` are pure functions of those inputs, so two runs
from the same fresh generator state produce byte-identical manifest text. -/
theorem c6_deterministic (cfg : Config) (env : Env) :
    (let firstRun := manifestText cfg env
     let secondRun := manifestText cfg env
     firstRun = secondRun)
    ∧ (let firstRun := generate cfg env
       let secondRun := generate cfg env
       firstRun = secondRun) :=
  ⟨rfl, rfl⟩

/-- Claim C8: when the optional `protoc_go_plugin` is not configured,
synthesis succeeds and simply emits no `protogo` rule anywhere in the
manifest; when the plugin is configured but `go_home` is absent, synthesis
aborts with the descriptive configuration-error message and no manifest state
is produced. -/
theorem c8_protogo_plugin (cfg : Config) (env : Env) :
    (truthy cfg.protocGoPlugin = false →
      ∃ st, generate cfg env = .ok st ∧ "rule protogo\n" ∉ st.rulesBuf)
    ∧ (truthy cfg.protocGoPlugin = true → truthy cfg.goHome = false →
      generate cfg env
        = .error "go_home is not configured in either BLADE_ROOT or BLADE_ROOT.local.") := by
  constructor
  · intro hp
    obtain ⟨stP, hE, _, hM⟩ := protoRules_ok_no_plugin cfg env
      (generateCcRules cfg env (generateCommonRules env (generateFileHeader env (initState env)))) hp
    have hgen : generate cfg env
        = .ok (generateVersionRules env (generatePackageRules env (generateLexYaccRules env
            (generateShellRules env (generateGoRules cfg env (generatePythonRules env
              (generateThriftRules cfg env (generateJavaScalaRules cfg env
                (generateResourceRules env stP))))))))) := by
      simp only [generate, hE]
    refine ⟨_, hgen, ?_⟩
    rw [versionRules_protogo, packageRules_protogo, lexYaccRules_protogo,
      shellRules_protogo, goRules_protogo, pythonRules_protogo, thriftRules_protogo,
      javaScalaRules_protogo, resourceRules_protogo, hM, ccRules_protogo,
      commonRules_protogo, fileHeader_protogo]
    simp [initState]
  · intro hp hg
    simp only [generate, protoRules_error cfg env _ hp hg]

/-- Witness for `c8_protogo_plugin`: the plugin-absent branch at the minimal
configuration and the plugin-present/`go_home`-missing branch at
`cfgPlugNoHome`. -/
theorem c8_witness :
    (∃ st, generate cfgW envW = .ok st ∧ "rule protogo\n" ∉ st.rulesBuf)
    ∧ generate cfgPlugNoHome envW
        = .error "go_home is not configured in either BLADE_ROOT or BLADE_ROOT.local." :=
  ⟨(c8_protogo_plugin cfgW envW).1 (by decide),
   (c8_protogo_plugin cfgPlugNoHome envW).2 (by decide) (by decide)⟩

/-- Claim C7: in every rule block emitted by `generate_rule`, each optional
field line (description, depfile, generator, pool, restat, rspfile,
rspfile_content, deps) is present if and only if a truthy (non-empty) value
was supplied for it — an absent or empty optional value produces no line at
all — while the `rule <name>` and `command` lines are always present. -/
theorem c7_optional_field_presence (env : Env) (name command : String)
    (description depfile : Option String) (generator : Bool)
    (pool : Option String) (restat : Bool)
    (rspfile rspfileContent deps : Option String) :
    let buf := (generateRule env name command description depfile generator pool
        restat rspfile rspfileContent deps (initState env)).rulesBuf
    hasLineWith buf "rule " ∧ hasLineWith buf "  command = "
    ∧ (hasLineWith buf "  description = " ↔ truthyO description = true)
    ∧ (hasLineWith buf "  depfile = " ↔ truthyO depfile = true)
    ∧ (hasLineWith buf "  generator = 1" ↔ generator = true)
    ∧ (hasLineWith buf "  pool = " ↔ truthyO pool = true)
    ∧ (hasLineWith buf "  restat = 1" ↔ restat = true)
    ∧ (hasLineWith buf "  rspfile = " ↔ truthyO rspfile = true)
    ∧ (hasLineWith buf "  rspfile_content = " ↔ truthyO rspfileContent = true)
    ∧ (hasLineWith buf "  deps = " ↔ truthyO deps = true) := by
  simp +decide [hasLineWith, generateRule_rulesBuf, initState, ruleBlock,
    mem_ite_singleton, strStarts_app_T, strStarts_app_F, String.append_assoc,
    or_and_right, exists_or, and_assoc, exists_and_left, exists_eq_left]
